import Mathlib

/-!
Shallow embedding of `radioClass.py`: the `RadioState` enumeration and the
`Radio` class with its methods `getState`, `encodeClientStatus`,
`encodeConfig` and `decodeConfig`.

Modelling notes, matching Python semantics:
* Python's `Enum` deduplicates members by value, so `Idle = 0` does not
  create a new member: `RadioState.Idle` is an alias bound to the
  `Disconnected` member (value 0, name "Disconnected").  The inductive
  below therefore has seven constructors, and `Idle` is a definition
  equal to `Disconnected`.
* Python dicts are modelled as association lists with string keys and
  `PyValue` values; `d[k]` is `List.lookup` and a `KeyError` is `none`.
* Methods that assign to `self` (`getState`, `encodeClientStatus`) are
  modelled in state-passing style: they return their Python result
  together with the updated `Radio`.
-/

/-- A dynamically typed Python value, as stored in the untyped fields of
`Radio` and in the dicts exchanged with the serialization layer. -/
inductive PyValue where
  | none : PyValue
  | str : String → PyValue
  | bool : Bool → PyValue
  | int : Int → PyValue
  deriving DecidableEq, Repr

/-- The `RadioState` enum of `radioClass.py`.  Python's `Enum` merges
members with equal values, so `Idle = 0` is an alias of `Disconnected`
and is not a constructor here. -/
inductive RadioState where
  | Disconnected : RadioState
  | Receiving : RadioState
  | Transmitting : RadioState
  | ConnectError : RadioState
  | TransmitError : RadioState
  | ReceiveError : RadioState
  | UnknownError : RadioState
  deriving DecidableEq, Repr

/-- In Python, `RadioState.Idle` resolves to the `Disconnected` member
because both were declared with value 0. -/
def RadioState.Idle : RadioState := RadioState.Disconnected

/-- The `.value` attribute of each enum member. -/
def RadioState.value : RadioState → Nat
  | .Disconnected => 0
  | .Receiving => 1
  | .Transmitting => 2
  | .ConnectError => 10
  | .TransmitError => 11
  | .ReceiveError => 12
  | .UnknownError => 20

/-- The `.name` attribute of each enum member (the alias `Idle` has
name "Disconnected", since it is the `Disconnected` member). -/
def RadioState.name : RadioState → String
  | .Disconnected => "Disconnected"
  | .Receiving => "Receiving"
  | .Transmitting => "Transmitting"
  | .ConnectError => "ConnectError"
  | .TransmitError => "TransmitError"
  | .ReceiveError => "ReceiveError"
  | .UnknownError => "UnknownError"

/-- The `Radio` class: eight configuration fields (held untyped, as the
Python constructor stores whatever it is given) and the runtime-status
fields initialised in `__init__`. -/
structure Radio where
  name : PyValue
  desc : PyValue
  ctrlMode : PyValue
  ctrlPort : PyValue
  txDev : PyValue
  rxDev : PyValue
  sigMode : PyValue
  sigId : PyValue
  zone : String
  chan : String
  lastid : String
  muted : Bool
  error : Bool
  scanning : Bool
  talkaround : Bool
  monitor : Bool
  lowpower : Bool
  state : RadioState
  deriving DecidableEq, Repr

/-- The `Radio.controlModes` class constant (documentation data). -/
def Radio.controlModes : List String :=
  ["None", "SB9600-XTL-O", "SB9600-XTL-W", "SB9600-SPECTRA", "SB9600-MCS",
   "Soundcard-CM108", "Soundcard-VOX"]

/-- The `Radio.signallingModes` class constant (documentation data). -/
def Radio.signallingModes : List String :=
  ["None", "MDC", "ANI", "Singletone", "QCII"]

/-- `Radio.__init__`: store the eight parameters, set the client-facing
runtime fields to their defaults, and start in `Disconnected`.  The
Python optional parameters default to `None`; a caller omitting them
passes `PyValue.none` here. -/
def Radio.init (name desc ctrlMode ctrlPort txDev rxDev signalMode signalId :
    PyValue) : Radio :=
  { name := name
    desc := desc
    ctrlMode := ctrlMode
    ctrlPort := ctrlPort
    txDev := txDev
    rxDev := rxDev
    sigMode := signalMode
    sigId := signalId
    zone := ""
    chan := ""
    lastid := ""
    muted := false
    error := false
    scanning := false
    talkaround := false
    monitor := false
    lowpower := false
    state := RadioState.Disconnected }

/-- `Radio.getState`: return `(self.state, stateString)` and, as a side
effect, set `self.error` according to whether the state value is in the
error range (≥ 10).  The updated radio is returned alongside. -/
def Radio.getState (r : Radio) : (RadioState × String) × Radio :=
  if r.state.value < 10 then
    ((r.state, r.state.name), { r with error := false })
  else
    ((r.state,
      if r.state = RadioState.ConnectError then "Connection Error"
      else if r.state = RadioState.TransmitError then "Transmit Error"
      else if r.state = RadioState.ReceiveError then "Receive Error"
      else "Unknown Error"),
     { r with error := true })

/-- `Radio.encodeClientStatus`: call `getState`, then build the client
status dict; `state` is the literal "Error" with `errorText` carrying the
detailed label when the state value is ≥ 10, otherwise `state` is the
plain label and `errorText` is empty.  The updated radio (the `getState`
side effect on `error`) is returned alongside the dict. -/
def Radio.encodeClientStatus (r : Radio) : List (String × PyValue) × Radio :=
  let res := r.getState
  let state := res.1.1
  let stateString := res.1.2
  let r1 := res.2
  let stateText := if 10 ≤ state.value then "Error" else stateString
  let errorText := if 10 ≤ state.value then stateString else ""
  ([("name", r1.name),
    ("zone", PyValue.str r1.zone),
    ("chan", PyValue.str r1.chan),
    ("lastid", PyValue.str r1.lastid),
    ("state", PyValue.str stateText),
    ("muted", PyValue.bool r1.muted),
    ("error", PyValue.bool r1.error),
    ("errorText", PyValue.str errorText),
    ("scanning", PyValue.bool r1.scanning),
    ("talkaround", PyValue.bool r1.talkaround),
    ("monitor", PyValue.bool r1.monitor),
    ("lowpower", PyValue.bool r1.lowpower)], r1)

/-- `Radio.encodeConfig`: the dict of the eight static configuration
fields, in the source's key order. -/
def Radio.encodeConfig (r : Radio) : List (String × PyValue) :=
  [("name", r.name),
   ("desc", r.desc),
   ("ctrlMode", r.ctrlMode),
   ("ctrlPort", r.ctrlPort),
   ("txDevice", r.txDev),
   ("rxDevice", r.rxDev),
   ("sigMode", r.sigMode),
   ("sigId", r.sigId)]

/-- `Radio.decodeConfig`: look up the eight required keys left to right
(Python evaluates the constructor arguments in this order, raising
`KeyError` at the first missing key, modelled by `none`) and build a
fresh `Radio` from them. -/
def Radio.decodeConfig (radioDict : List (String × PyValue)) : Option Radio :=
  (radioDict.lookup "name").bind fun name =>
  (radioDict.lookup "desc").bind fun desc =>
  (radioDict.lookup "ctrlMode").bind fun ctrlMode =>
  (radioDict.lookup "ctrlPort").bind fun ctrlPort =>
  (radioDict.lookup "txDevice").bind fun txDevice =>
  (radioDict.lookup "rxDevice").bind fun rxDevice =>
  (radioDict.lookup "sigMode").bind fun sigMode =>
  (radioDict.lookup "sigId").bind fun sigId =>
  some (Radio.init name desc ctrlMode ctrlPort txDevice rxDevice sigMode sigId)

/-- A concrete radio with name "R1" and otherwise defaulted fields, used
as a concrete input in several closed statements. -/
def radioR1 : Radio :=
  Radio.init (PyValue.str "R1") PyValue.none PyValue.none PyValue.none
    PyValue.none PyValue.none PyValue.none PyValue.none

/-- C1: for every Radio `r`, `decodeConfig (r.encodeConfig)` succeeds and
yields a Radio whose eight config fields equal `r`'s and whose runtime
status fields are all at construction defaults, whatever `r`'s runtime
status fields were at encode time. -/
theorem decodeConfig_encodeConfig_roundtrip (r : Radio) :
    Radio.decodeConfig r.encodeConfig =
      some { name := r.name, desc := r.desc, ctrlMode := r.ctrlMode,
             ctrlPort := r.ctrlPort, txDev := r.txDev, rxDev := r.rxDev,
             sigMode := r.sigMode, sigId := r.sigId,
             zone := "", chan := "", lastid := "", muted := false,
             error := false, scanning := false, talkaround := false,
             monitor := false, lowpower := false,
             state := RadioState.Disconnected } := rfl

/-- C3: `RadioState.Idle` and `RadioState.Disconnected` are one and the
same enumeration value (Python `Enum` aliasing), both of value 0; a radio
whose state is set to `Idle` holds a state equal to `Disconnected`, and
`getState` on it returns the label "Disconnected". -/
theorem idle_aliases_disconnected :
    RadioState.Idle = RadioState.Disconnected ∧
    RadioState.Idle.value = 0 ∧
    ∀ r : Radio,
      ({ r with state := RadioState.Idle }).state = RadioState.Disconnected ∧
      ({ r with state := RadioState.Idle }).getState.1.2 = "Disconnected" :=
  ⟨rfl, rfl, fun _ => ⟨rfl, rfl⟩⟩

/-- C4: after `getState`, the `error` field is true exactly when the held
state's value is ≥ 10. -/
theorem getState_error_flag (r : Radio) :
    ((r.getState).2.error = true) ↔ 10 ≤ r.state.value := by
  obtain ⟨n, d, cm, cp, tx, rx, sm, si, z, c, l, mu, e, sc, ta, mo, lp, st⟩ := r
  cases st <;> simp [Radio.getState, RadioState.value]

/-- C7: the constructor accepts arbitrary argument values unvalidated and
stores them as given; the runtime-status fields start at their defaults
(empty strings, false flags, state `Disconnected`), and an immediately
following `getState` reports `error = false`. -/
theorem init_defaults (n d cm cp tx rx sm si : PyValue) :
    let r := Radio.init n d cm cp tx rx sm si
    r.name = n ∧ r.desc = d ∧ r.ctrlMode = cm ∧ r.ctrlPort = cp ∧
    r.txDev = tx ∧ r.rxDev = rx ∧ r.sigMode = sm ∧ r.sigId = si ∧
    r.zone = "" ∧ r.chan = "" ∧ r.lastid = "" ∧
    r.muted = false ∧ r.error = false ∧ r.scanning = false ∧
    r.talkaround = false ∧ r.monitor = false ∧ r.lowpower = false ∧
    r.state = RadioState.Disconnected ∧
    (r.getState).2.error = false :=
  ⟨rfl, rfl, rfl, rfl, rfl, rfl, rfl, rfl, rfl, rfl, rfl, rfl, rfl, rfl,
   rfl, rfl, rfl, rfl, rfl⟩

/-- C10: `getState` is idempotent: with the state unchanged between two
calls, the second call returns the same (state, label) pair and leaves
the `error` field with the same value as the first. -/
theorem getState_idempotent (r : Radio) :
    ((r.getState).2).getState.1 = (r.getState).1 ∧
    ((r.getState).2).getState.2.error = (r.getState).2.error := by
  obtain ⟨n, d, cm, cp, tx, rx, sm, si, z, c, l, mu, e, sc, ta, mo, lp, st⟩ := r
  cases st <;> exact ⟨rfl, rfl⟩

/-- Reference label mapping stated by the (amended) specification: for
members of value < 10 the label is the member's resolved name — which is
"Disconnected" for both `Disconnected` and its alias `Idle` — and for
the error range the four fixed human-readable strings. -/
def refStateLabel : RadioState → String
  | .Disconnected => "Disconnected"
  | .Receiving => "Receiving"
  | .Transmitting => "Transmitting"
  | .ConnectError => "Connection Error"
  | .TransmitError => "Transmit Error"
  | .ReceiveError => "Receive Error"
  | .UnknownError => "Unknown Error"

/-- C2 counterexample: a radio whose state is set to `RadioState.Idle`
gets the `getState` label "Disconnected", not "Idle" as the claim's
reference mapping demands, because `Idle` is an alias of `Disconnected`. -/
theorem getState_idle_label_counterexample :
    ({ radioR1 with state := RadioState.Idle }).getState.1.2 = "Disconnected" ∧
    ({ radioR1 with state := RadioState.Idle }).getState.1.2 ≠ "Idle" :=
  ⟨rfl, by decide⟩

/-- C2 (amended): the `getState` label is a function of the held state
equal to the reference mapping in which value-0 states (`Disconnected`
and its alias `Idle`) are labelled "Disconnected", `Receiving` and
`Transmitting` are labelled by their names, and the error-range members
get "Connection Error" / "Transmit Error" / "Receive Error" / "Unknown
Error". -/
theorem getState_label_matches_reference (r : Radio) :
    (r.getState).1.2 = refStateLabel r.state := by
  obtain ⟨n, d, cm, cp, tx, rx, sm, si, z, c, l, mu, e, sc, ta, mo, lp, st⟩ := r
  cases st <;> rfl

/-- C5: the client status dict maps "state" to the literal "Error" iff
the held state's value is ≥ 10; in that case "errorText" carries the
detailed `getState` label, and otherwise "state" carries the plain
`getState` label and "errorText" is empty. -/
theorem encodeClientStatus_state_key (r : Radio) :
    ((r.encodeClientStatus).1.lookup "state" = some (PyValue.str "Error") ↔
      10 ≤ r.state.value) ∧
    (if 10 ≤ r.state.value then
      (r.encodeClientStatus).1.lookup "errorText" =
        some (PyValue.str (r.getState).1.2)
    else
      (r.encodeClientStatus).1.lookup "state" =
        some (PyValue.str (r.getState).1.2) ∧
      (r.encodeClientStatus).1.lookup "errorText" = some (PyValue.str "")) := by
  obtain ⟨n, d, cm, cp, tx, rx, sm, si, z, c, l, mu, e, sc, ta, mo, lp, st⟩ := r
  cases st <;>
    simp [Radio.encodeClientStatus, Radio.getState, RadioState.value,
      RadioState.name, List.lookup]

/-- C6: `decodeConfig` fails (with a key lookup failure) iff at least one
of the eight required keys is missing; when all eight are present it
succeeds and uses the eight looked-up values verbatim, whatever they
are. -/
theorem decodeConfig_requires_all_keys (m : List (String × PyValue)) :
    ((Radio.decodeConfig m = none) ↔
      (m.lookup "name" = none ∨ m.lookup "desc" = none ∨
       m.lookup "ctrlMode" = none ∨ m.lookup "ctrlPort" = none ∨
       m.lookup "txDevice" = none ∨ m.lookup "rxDevice" = none ∨
       m.lookup "sigMode" = none ∨ m.lookup "sigId" = none)) ∧
    ∀ v1 v2 v3 v4 v5 v6 v7 v8 : PyValue,
      m.lookup "name" = some v1 → m.lookup "desc" = some v2 →
      m.lookup "ctrlMode" = some v3 → m.lookup "ctrlPort" = some v4 →
      m.lookup "txDevice" = some v5 → m.lookup "rxDevice" = some v6 →
      m.lookup "sigMode" = some v7 → m.lookup "sigId" = some v8 →
      Radio.decodeConfig m = some (Radio.init v1 v2 v3 v4 v5 v6 v7 v8) := by
  cases h1 : m.lookup "name" <;> cases h2 : m.lookup "desc" <;>
  cases h3 : m.lookup "ctrlMode" <;> cases h4 : m.lookup "ctrlPort" <;>
  cases h5 : m.lookup "txDevice" <;> cases h6 : m.lookup "rxDevice" <;>
  cases h7 : m.lookup "sigMode" <;> cases h8 : m.lookup "sigId" <;>
  simp [Radio.decodeConfig, h1, h2, h3, h4, h5, h6, h7, h8]
  intro v1 v2 v3 v4 v5 v6 v7 v8 e1 e2 e3 e4 e5 e6 e7 e8
  subst e1; subst e2; subst e3; subst e4
  subst e5; subst e6; subst e7; subst e8
  rfl

/-- C6 witness: on a concrete dict holding all eight keys (the spec's
§8 scenario), `decodeConfig` succeeds with the values verbatim. -/
theorem decodeConfig_requires_all_keys_witness :
    Radio.decodeConfig
      [("name", PyValue.str "R2"), ("desc", PyValue.none),
       ("ctrlMode", PyValue.str "None"), ("ctrlPort", PyValue.none),
       ("txDevice", PyValue.none), ("rxDevice", PyValue.none),
       ("sigMode", PyValue.str "None"), ("sigId", PyValue.none)] =
    some (Radio.init (PyValue.str "R2") PyValue.none (PyValue.str "None")
      PyValue.none PyValue.none PyValue.none (PyValue.str "None")
      PyValue.none) :=
  (decodeConfig_requires_all_keys _).2 _ _ _ _ _ _ _ _
    rfl rfl rfl rfl rfl rfl rfl rfl

/-- C8: `encodeConfig` is a function of the eight config fields alone
(two radios agreeing on them produce the same dict, whatever their
runtime fields), and its key set is exactly the eight config keys — in
particular no runtime-status key and no "state" key occurs.  In the
source the method performs no assignment, so it is modelled as returning
only the dict: it cannot change any field of the radio. -/
theorem encodeConfig_pure_config_keys_only (r q : Radio)
    (h : r.name = q.name ∧ r.desc = q.desc ∧ r.ctrlMode = q.ctrlMode ∧
         r.ctrlPort = q.ctrlPort ∧ r.txDev = q.txDev ∧ r.rxDev = q.rxDev ∧
         r.sigMode = q.sigMode ∧ r.sigId = q.sigId) :
    r.encodeConfig = q.encodeConfig ∧
    r.encodeConfig.map Prod.fst =
      ["name", "desc", "ctrlMode", "ctrlPort", "txDevice", "rxDevice",
       "sigMode", "sigId"] ∧
    ∀ k ∈ ["zone", "chan", "lastid", "muted", "error", "scanning",
           "talkaround", "monitor", "lowpower", "state"],
      k ∉ r.encodeConfig.map Prod.fst := by
  obtain ⟨h1, h2, h3, h4, h5, h6, h7, h8⟩ := h
  have hkeys : r.encodeConfig.map Prod.fst =
      ["name", "desc", "ctrlMode", "ctrlPort", "txDevice", "rxDevice",
       "sigMode", "sigId"] := rfl
  refine ⟨?_, hkeys, ?_⟩
  · simp [Radio.encodeConfig, h1, h2, h3, h4, h5, h6, h7, h8]
  · rw [hkeys]
    decide

/-- A radio sharing `radioR1`'s configuration but with runtime-status
fields driven away from their defaults. -/
def radioR1busy : Radio :=
  { radioR1 with
    zone := "Z1"
    chan := "C3"
    muted := true
    state := RadioState.ReceiveError }

/-- C8 witness: two concrete radios with equal config but different
runtime status encode to the same config dict with exactly the eight
config keys. -/
theorem encodeConfig_pure_config_keys_only_witness :
    radioR1busy.encodeConfig = radioR1.encodeConfig ∧
    radioR1busy.encodeConfig.map Prod.fst =
      ["name", "desc", "ctrlMode", "ctrlPort", "txDevice", "rxDevice",
       "sigMode", "sigId"] ∧
    ∀ k ∈ ["zone", "chan", "lastid", "muted", "error", "scanning",
           "talkaround", "monitor", "lowpower", "state"],
      k ∉ radioR1busy.encodeConfig.map Prod.fst :=
  encodeConfig_pure_config_keys_only radioR1busy radioR1
    ⟨rfl, rfl, rfl, rfl, rfl, rfl, rfl, rfl⟩

/-- C9: `getState` and `encodeClientStatus` change at most the `error`
field: the radio they return is the input radio with only `error`
replaced.  Both are total functions of the radio — no state value makes
either fail. -/
theorem getState_encodeClientStatus_frame (r : Radio) :
    (r.getState).2 = { r with error := (r.getState).2.error } ∧
    (r.encodeClientStatus).2 =
      { r with error := (r.encodeClientStatus).2.error } := by
  obtain ⟨n, d, cm, cp, tx, rx, sm, si, z, c, l, mu, e, sc, ta, mo, lp, st⟩ := r
  cases st <;> exact ⟨rfl, rfl⟩
